import Mathlib

/-!
Shallow embedding of the MindSafe scoring engine
(`src/evaluation/scoring.py` together with the configuration tables in
`src/ai-agents/evaluation/config.py`), and proofs about it.

Python floats are modelled as exact rationals.  The two float artefacts the
engine can actually produce are modelled explicitly:
  * a `ZeroDivisionError` (Python raises on float division by zero) is the
    `divFault` outcome;
  * `float('inf')` is the default for a missing `hard_max`; the expression
    `(inf - value) / (inf - ideal_high)` evaluates to `inf/inf = NaN` in
    Python, modelled as the `nanScore` outcome.
-/

namespace MindSafe

/-- Outcome of one call to the normalizer: a finite score, a NaN produced by
`inf/inf` arithmetic, or a raised `ZeroDivisionError`. -/
inductive NormOut where
  | score : ℚ → NormOut
  | nanScore : NormOut
  | divFault : NormOut
deriving DecidableEq

/-- Python float division: raises `ZeroDivisionError` on a zero denominator. -/
def qdiv (a b : ℚ) : Option ℚ := if b = 0 then none else some (a / b)

/-- One entry of `METRIC_CONFIG[metric][band]`: optional fields mirror keys
that may be absent from the Python dict (`config.get(...)` supplies the
defaults inside the normalizer).  Field order:
`ideal_low`, `ideal_high`, `hard_min`, `hard_max`, `direction`. -/
structure MSpec where
  ideal_low : Option ℚ
  ideal_high : Option ℚ
  hard_min : Option ℚ
  hard_max : Option ℚ
  direction : String
deriving DecidableEq

/-- `AGE_BANDS` entry: `min_age`, `max_age`, `label`. -/
structure AgeBand where
  min_age : ℚ
  max_age : ℚ
  label : String
deriving DecidableEq

/-- `AGE_BANDS` from `config.py` (insertion-ordered dict as an assoc list). -/
def AGE_BANDS : List (String × AgeBand) :=
  [ ("G1_0_2", ⟨0, 2, "Infant/Toddler"⟩),
    ("G2_2_3", ⟨2, 3, "Early Preschool"⟩),
    ("G3_3_5", ⟨3, 5, "Preschool"⟩),
    ("G4_5_8", ⟨5, 8, "Early Elementary"⟩) ]

/-- `METRIC_CONFIG` from `config.py`.  Each `MSpec` lists
`⟨ideal_low, ideal_high, hard_min, hard_max, direction⟩`; `none` marks a key
absent from the corresponding Python dict literal. -/
def METRIC_CONFIG : List (String × List (String × MSpec)) :=
  [ ("cuts_per_minute",
      [ ("G1_0_2", ⟨some 0, some 6, none, some 20, "lower_better"⟩),
        ("G2_2_3", ⟨some 0, some 8, none, some 25, "lower_better"⟩),
        ("G3_3_5", ⟨some 4, some 12, none, some 30, "mid"⟩),
        ("G4_5_8", ⟨some 4, some 15, none, some 35, "mid"⟩) ]),
    ("avg_shot_length",
      [ ("G1_0_2", ⟨some 8, some 100, some 2, none, "higher_better"⟩),
        ("G2_2_3", ⟨some 6, some 100, some 2, none, "higher_better"⟩),
        ("G3_3_5", ⟨some 4, some 20, some 1, none, "mid"⟩),
        ("G4_5_8", ⟨some 3, some 15, some 1, none, "mid"⟩) ]),
    ("motion_high_frac",
      [ ("G1_0_2", ⟨some 0, some 0.2, none, some 0.6, "lower_better"⟩),
        ("G2_2_3", ⟨some 0, some 0.3, none, some 0.7, "lower_better"⟩),
        ("G3_3_5", ⟨some 0.1, some 0.4, none, some 0.8, "mid"⟩),
        ("G4_5_8", ⟨some 0.1, some 0.5, none, some 0.9, "mid"⟩) ]),
    ("loudness_mean",
      [ ("G1_0_2", ⟨some (-20), some (-10), none, some (-5), "mid"⟩),
        ("G2_2_3", ⟨some (-20), some (-8), none, some (-3), "mid"⟩),
        ("G3_3_5", ⟨some (-18), some (-6), none, some (-2), "mid"⟩),
        ("G4_5_8", ⟨some (-18), some (-5), none, some 0, "mid"⟩) ]),
    ("music_ratio",
      [ ("G1_0_2", ⟨some 0.3, some 0.7, none, some 1, "mid"⟩),
        ("G2_2_3", ⟨some 0.25, some 0.65, none, some 1, "mid"⟩),
        ("G3_3_5", ⟨some 0.2, some 0.6, none, some 1, "mid"⟩),
        ("G4_5_8", ⟨some 0.15, some 0.5, none, some 1, "mid"⟩) ]),
    ("sfx_rate",
      [ ("G1_0_2", ⟨some 0, some 2, none, some 8, "lower_better"⟩),
        ("G2_2_3", ⟨some 0, some 3, none, some 10, "lower_better"⟩),
        ("G3_3_5", ⟨some 1, some 5, none, some 15, "mid"⟩),
        ("G4_5_8", ⟨some 1, some 6, none, some 20, "mid"⟩) ]),
    ("adjacent_similarity_mean",
      [ ("G1_0_2", ⟨some 0.7, some 1, some 0.4, none, "higher_better"⟩),
        ("G2_2_3", ⟨some 0.65, some 1, some 0.35, none, "higher_better"⟩),
        ("G3_3_5", ⟨some 0.6, some 0.9, some 0.3, none, "higher_better"⟩),
        ("G4_5_8", ⟨some 0.55, some 0.85, some 0.25, none, "higher_better"⟩) ]),
    ("topic_jumps",
      [ ("G1_0_2", ⟨some 0, some 0.1, none, some 0.3, "lower_better"⟩),
        ("G2_2_3", ⟨some 0, some 0.15, none, some 0.4, "lower_better"⟩),
        ("G3_3_5", ⟨some 0, some 0.2, none, some 0.5, "lower_better"⟩),
        ("G4_5_8", ⟨some 0, some 0.25, none, some 0.6, "lower_better"⟩) ]),
    ("type_token_ratio",
      [ ("G1_0_2", ⟨some 0.3, some 0.5, some 0.1, none, "mid"⟩),
        ("G2_2_3", ⟨some 0.35, some 0.55, some 0.15, none, "mid"⟩),
        ("G3_3_5", ⟨some 0.4, some 0.65, some 0.2, none, "higher_better"⟩),
        ("G4_5_8", ⟨some 0.45, some 0.75, some 0.25, none, "higher_better"⟩) ]),
    ("mean_utterance_length",
      [ ("G1_0_2", ⟨some 3, some 6, none, some 12, "mid"⟩),
        ("G2_2_3", ⟨some 4, some 8, none, some 15, "mid"⟩),
        ("G3_3_5", ⟨some 5, some 10, none, some 20, "mid"⟩),
        ("G4_5_8", ⟨some 6, some 12, none, some 25, "mid"⟩) ]),
    ("tier2_vocab_frac",
      [ ("G1_0_2", ⟨some 0, some 0.1, none, some 0.3, "lower_better"⟩),
        ("G2_2_3", ⟨some 0.05, some 0.15, none, some 0.4, "mid"⟩),
        ("G3_3_5", ⟨some 0.1, some 0.25, none, some 0.5, "mid"⟩),
        ("G4_5_8", ⟨some 0.15, some 0.35, none, some 0.6, "higher_better"⟩) ]),
    ("question_rate",
      [ ("G1_0_2", ⟨some 1, some 4, none, some 10, "mid"⟩),
        ("G2_2_3", ⟨some 2, some 5, none, some 12, "mid"⟩),
        ("G3_3_5", ⟨some 2, some 6, none, some 15, "mid"⟩),
        ("G4_5_8", ⟨some 2, some 7, none, some 18, "mid"⟩) ]),
    ("prosocial_ratio",
      [ ("G1_0_2", ⟨some 0.7, some 1, some 0.3, none, "higher_better"⟩),
        ("G2_2_3", ⟨some 0.65, some 1, some 0.3, none, "higher_better"⟩),
        ("G3_3_5", ⟨some 0.6, some 1, some 0.25, none, "higher_better"⟩),
        ("G4_5_8", ⟨some 0.55, some 1, some 0.2, none, "higher_better"⟩) ]),
    ("aggression_rate",
      [ ("G1_0_2", ⟨some 0, some 0.5, none, some 3, "lower_better"⟩),
        ("G2_2_3", ⟨some 0, some 1, none, some 4, "lower_better"⟩),
        ("G3_3_5", ⟨some 0, some 1.5, none, some 5, "lower_better"⟩),
        ("G4_5_8", ⟨some 0, some 2, none, some 6, "lower_better"⟩) ]),
    ("sel_strategy_rate",
      [ ("G1_0_2", ⟨some 0.5, some 3, none, some 10, "higher_better"⟩),
        ("G2_2_3", ⟨some 1, some 4, none, some 12, "higher_better"⟩),
        ("G3_3_5", ⟨some 1.5, some 5, none, some 15, "higher_better"⟩),
        ("G4_5_8", ⟨some 2, some 6, none, some 18, "higher_better"⟩) ]),
    ("emotion_word_rate",
      [ ("G1_0_2", ⟨some 1, some 4, none, some 10, "mid"⟩),
        ("G2_2_3", ⟨some 1.5, some 5, none, some 12, "mid"⟩),
        ("G3_3_5", ⟨some 2, some 6, none, some 15, "higher_better"⟩),
        ("G4_5_8", ⟨some 2.5, some 7, none, some 18, "higher_better"⟩) ]),
    ("mental_state_word_rate",
      [ ("G1_0_2", ⟨some 0.5, some 2, none, some 6, "mid"⟩),
        ("G2_2_3", ⟨some 1, some 3, none, some 8, "mid"⟩),
        ("G3_3_5", ⟨some 1.5, some 4, none, some 10, "higher_better"⟩),
        ("G4_5_8", ⟨some 2, some 5, none, some 12, "higher_better"⟩) ]),
    ("fantasy_rate",
      [ ("G1_0_2", ⟨some 0.2, some 0.6, none, some 0.9, "mid"⟩),
        ("G2_2_3", ⟨some 0.3, some 0.7, none, some 0.95, "mid"⟩),
        ("G3_3_5", ⟨some 0.3, some 0.8, none, some 1, "mid"⟩),
        ("G4_5_8", ⟨some 0.2, some 0.7, none, some 1, "mid"⟩) ]),
    ("impossible_event_rate",
      [ ("G1_0_2", ⟨some 0, some 2, none, some 8, "lower_better"⟩),
        ("G2_2_3", ⟨some 0, some 3, none, some 10, "lower_better"⟩),
        ("G3_3_5", ⟨some 0, some 4, none, some 12, "mid"⟩),
        ("G4_5_8", ⟨some 0, some 5, none, some 15, "mid"⟩) ]),
    ("direct_address_rate",
      [ ("G1_0_2", ⟨some 3, some 8, none, some 20, "higher_better"⟩),
        ("G2_2_3", ⟨some 2, some 6, none, some 15, "higher_better"⟩),
        ("G3_3_5", ⟨some 1, some 5, none, some 12, "mid"⟩),
        ("G4_5_8", ⟨some 0.5, some 3, none, some 10, "mid"⟩) ]),
    ("interactive_block_count",
      [ ("G1_0_2", ⟨some 3, some 10, none, some 30, "higher_better"⟩),
        ("G2_2_3", ⟨some 2, some 8, none, some 25, "higher_better"⟩),
        ("G3_3_5", ⟨some 1, some 6, none, some 20, "mid"⟩),
        ("G4_5_8", ⟨some 0, some 4, none, some 15, "mid"⟩) ]) ]

/-- `DIMENSIONS` from `config.py`: dimension name to its declared metrics. -/
def DIMENSIONS : List (String × List String) :=
  [ ("Pacing",
      ["cuts_per_minute", "avg_shot_length", "motion_high_frac",
       "loudness_mean", "music_ratio", "sfx_rate"]),
    ("Story", ["adjacent_similarity_mean", "topic_jumps"]),
    ("Language",
      ["type_token_ratio", "mean_utterance_length", "tier2_vocab_frac",
       "question_rate"]),
    ("SEL",
      ["prosocial_ratio", "aggression_rate", "sel_strategy_rate",
       "emotion_word_rate", "mental_state_word_rate"]),
    ("Fantasy", ["fantasy_rate", "impossible_event_rate"]),
    ("Interactivity", ["direct_address_rate", "interactive_block_count"]) ]

/-- `DEV_WEIGHTS` from `config.py`. -/
def DEV_WEIGHTS : List (String × List (String × ℚ)) :=
  [ ("G1_0_2",
      [("Pacing", 0.20), ("Story", 0.15), ("Language", 0.20),
       ("SEL", 0.25), ("Fantasy", 0.05), ("Interactivity", 0.15)]),
    ("G2_2_3",
      [("Pacing", 0.18), ("Story", 0.18), ("Language", 0.22),
       ("SEL", 0.25), ("Fantasy", 0.07), ("Interactivity", 0.10)]),
    ("G3_3_5",
      [("Pacing", 0.15), ("Story", 0.20), ("Language", 0.25),
       ("SEL", 0.25), ("Fantasy", 0.05), ("Interactivity", 0.10)]),
    ("G4_5_8",
      [("Pacing", 0.12), ("Story", 0.23), ("Language", 0.25),
       ("SEL", 0.23), ("Fantasy", 0.07), ("Interactivity", 0.10)]) ]

/-- `BRAINROT_WEIGHTS` from `config.py`. -/
def BRAINROT_WEIGHTS : List (String × List (String × ℚ)) :=
  [ ("G1_0_2",
      [("Pacing", 0.40), ("Story", 0.10), ("Language", 0.05),
       ("SEL", 0.30), ("Fantasy", 0.10), ("Interactivity", 0.05)]),
    ("G2_2_3",
      [("Pacing", 0.38), ("Story", 0.12), ("Language", 0.05),
       ("SEL", 0.28), ("Fantasy", 0.12), ("Interactivity", 0.05)]),
    ("G3_3_5",
      [("Pacing", 0.35), ("Story", 0.15), ("Language", 0.10),
       ("SEL", 0.25), ("Fantasy", 0.15), ("Interactivity", 0.00)]),
    ("G4_5_8",
      [("Pacing", 0.30), ("Story", 0.18), ("Language", 0.12),
       ("SEL", 0.22), ("Fantasy", 0.13), ("Interactivity", 0.05)]) ]

/-- The two nested dict lookups `METRIC_CONFIG[metric][band]` (as `Option`). -/
def lookupSpec (metric_name age_band : String) : Option MSpec :=
  match METRIC_CONFIG.lookup metric_name with
  | none => none
  | some bands => bands.lookup age_band

/-- `assign_age_band` from `scoring.py`: first declared band containing the
age, defaulting to the oldest band `"G4_5_8"` when none matches. -/
def assign_age_band (child_age : ℚ) : String :=
  match AGE_BANDS.find? (fun p =>
      decide (p.2.min_age ≤ child_age) && decide (child_age < p.2.max_age)) with
  | some p => p.1
  | none => "G4_5_8"

/-- Body of `normalize_metric` after the two lookups succeeded, translated
branch for branch from `scoring.py`.  `config.get("ideal_low", 0)` and
`config.get("ideal_high", 1)` supply the defaults `lo`/`hi`;
`config.get("hard_min", 0)` supplies `hm`; `config.get("hard_max",
float('inf'))` is matched on: a present value behaves normally, an absent one
makes `value >= hard_max` false and turns the interpolation
`(hard_max - value) / (hard_max - ideal_high)` into `inf/inf = NaN`. -/
def normalizeWith (cfg : MSpec) (value : ℚ) : NormOut :=
  let lo := cfg.ideal_low.getD 0
  let hi := cfg.ideal_high.getD 1
  if cfg.direction = "higher_better" then
    let hm := cfg.hard_min.getD 0
    if hi ≤ value then .score 1
    else if value ≤ hm then .score 0
    else if lo ≤ value then
      match qdiv (value - lo) (hi - lo) with
      | some t => .score (0.8 + 0.2 * t)
      | none => .divFault
    else
      match qdiv (value - hm) (lo - hm) with
      | some t => .score (0.8 * t)
      | none => .divFault
  else if cfg.direction = "lower_better" then
    match cfg.hard_max with
    | some hmax =>
      if value ≤ lo then .score 1
      else if hmax ≤ value then .score 0
      else if value ≤ hi then
        match qdiv (hi - value) (hi - lo) with
        | some t => .score (0.8 + 0.2 * t)
        | none => .divFault
      else
        match qdiv (hmax - value) (hmax - hi) with
        | some t => .score (0.8 * t)
        | none => .divFault
    | none =>
      if value ≤ lo then .score 1
      else if value ≤ hi then
        match qdiv (hi - value) (hi - lo) with
        | some t => .score (0.8 + 0.2 * t)
        | none => .divFault
      else .nanScore
  else if cfg.direction = "mid" then
    let hm := cfg.hard_min.getD 0
    match cfg.hard_max with
    | some hmax =>
      if lo ≤ value ∧ value ≤ hi then .score 1
      else if value < lo then
        if value ≤ hm then .score 0
        else
          match qdiv (value - hm) (lo - hm) with
          | some t => .score (0.5 + 0.5 * t)
          | none => .divFault
      else
        if hmax ≤ value then .score 0
        else
          match qdiv (hmax - value) (hmax - hi) with
          | some t => .score (0.5 + 0.5 * t)
          | none => .divFault
    | none =>
      if lo ≤ value ∧ value ≤ hi then .score 1
      else if value < lo then
        if value ≤ hm then .score 0
        else
          match qdiv (value - hm) (lo - hm) with
          | some t => .score (0.5 + 0.5 * t)
          | none => .divFault
      else .nanScore
  else .score 0.5

/-- `normalize_metric` from `scoring.py`: unknown metric or unconfigured
band return the neutral `0.5`; otherwise dispatch on the direction mode. -/
def normalize_metric (metric_name : String) (value : ℚ) (age_band : String) :
    NormOut :=
  match lookupSpec metric_name age_band with
  | none => .score 0.5
  | some cfg => normalizeWith cfg value

/-- A Python float value in the aggregation pipeline: `none` is NaN. -/
abbrev PyF := Option ℚ

/-- Float addition with NaN propagation. -/
def pyAdd : PyF → PyF → PyF
  | some a, some b => some (a + b)
  | _, _ => none

/-- Python `sum` over a float list (starts from `0`, NaN propagates). -/
def pySum (l : List PyF) : PyF := l.foldl pyAdd (some 0)

/-- The inner loop of `compute_dimension_scores`: normalize every declared
metric present in `raw_metrics` in declaration order, skipping absent
metrics (with a warning in the source); a raised `ZeroDivisionError`
propagates as `.error`. -/
def collectScores (metric_names : List String) (raw : List (String × ℚ))
    (age_band : String) : Except Unit (List PyF) :=
  match metric_names with
  | [] => .ok []
  | m :: rest =>
    match raw.lookup m with
    | some v =>
      match normalize_metric m v age_band with
      | .divFault => .error ()
      | .score q => (collectScores rest raw age_band).map (fun l => some q :: l)
      | .nanScore => (collectScores rest raw age_band).map (fun l => none :: l)
    | none => collectScores rest raw age_band

/-- The per-dimension part of `compute_dimension_scores`: average the
collected scores and scale by 100, or the neutral `50.0` when no declared
metric was available. -/
def dimLoop (raw : List (String × ℚ)) (age_band : String) :
    List (String × List String) → Except Unit (List (String × PyF))
  | [] => .ok []
  | (d, ms) :: rest =>
    match collectScores ms raw age_band with
    | .error e => .error e
    | .ok scores =>
      let dimScore : PyF :=
        if scores = [] then some 50
        else (pySum scores).map (fun s => s / (scores.length : ℚ) * 100)
      match dimLoop raw age_band rest with
      | .error e => .error e
      | .ok restOut => .ok ((d, dimScore) :: restOut)

/-- `compute_dimension_scores` from `scoring.py`. -/
def compute_dimension_scores (raw_metrics : List (String × ℚ))
    (age_band : String) : Except Unit (List (String × PyF)) :=
  dimLoop raw_metrics age_band DIMENSIONS

/-- The equal-weight fallback `{dim: 1.0 / len(DIMENSIONS) for dim in
DIMENSIONS}` used when an age band has no weight profile. -/
def equalWeights : List (String × ℚ) :=
  DIMENSIONS.map (fun p => (p.1, 1 / (DIMENSIONS.length : ℚ)))

/-- `aggregate_dev_score` from `scoring.py`: weighted sum over the age
band's developmental profile; a dimension missing from `dimension_scores`
is skipped (contributes 0, with a warning in the source). -/
def aggregate_dev_score (dimension_scores : List (String × ℚ))
    (age_band : String) : ℚ :=
  let weights :=
    match DEV_WEIGHTS.lookup age_band with
    | none => equalWeights
    | some w => w
  weights.foldl (fun acc p =>
    match dimension_scores.lookup p.1 with
    | some s => acc + p.2 * s
    | none => acc) 0

/-- The `risk_scores` dict built inside `aggregate_brainrot_index`: every
declared dimension gets `100 - score`, or the neutral `50.0` when it is
missing from `dimension_scores`. -/
def riskScores (dimension_scores : List (String × ℚ)) : List (String × ℚ) :=
  DIMENSIONS.map (fun p =>
    (p.1,
      match dimension_scores.lookup p.1 with
      | some s => 100 - s
      | none => 50))

/-- `aggregate_brainrot_index` from `scoring.py`: weighted sum of the
inverted (risk) scores over the age band's brainrot profile. -/
def aggregate_brainrot_index (dimension_scores : List (String × ℚ))
    (age_band : String) : ℚ :=
  let weights :=
    match BRAINROT_WEIGHTS.lookup age_band with
    | none => equalWeights
    | some w => w
  weights.foldl (fun acc p =>
    match (riskScores dimension_scores).lookup p.1 with
    | some r => acc + p.2 * r
    | none => acc) 0

/-- The `aggression_rate` check inside `generate_recommendations`.  The
source reads `METRIC_CONFIG["aggression_rate"][age_band]` and
`config["ideal_high"]` with raw subscripts, which raise `KeyError`
(modelled as `.error`) when the key is absent.  Message text is abbreviated
(the source interpolates the numeric value into the string). -/
def aggressionCheck (raw_metrics : List (String × ℚ)) (age_band : String) :
    Except Unit (List String) :=
  match raw_metrics.lookup "aggression_rate" with
  | none => .ok []
  | some v =>
    match lookupSpec "aggression_rate" age_band with
    | none => .error ()
    | some cfg =>
      match cfg.ideal_high with
      | none => .error ()
      | some ih => .ok (if ih < v then ["High aggression rate"] else [])

/-- The `cuts_per_minute` check inside `generate_recommendations`, with the
same raw-subscript `KeyError` behaviour (`config["hard_max"]`). -/
def cutsCheck (raw_metrics : List (String × ℚ)) (age_band : String) :
    Except Unit (List String) :=
  match raw_metrics.lookup "cuts_per_minute" with
  | none => .ok []
  | some v =>
    match lookupSpec "cuts_per_minute" age_band with
    | none => .error ()
    | some cfg =>
      match cfg.hard_max with
      | none => .error ()
      | some hmax => .ok (if hmax * 0.8 < v then ["Very fast pacing"] else [])

/-- The `prosocial_ratio` check inside `generate_recommendations` (a plain
`in`-guarded read, so it never raises). -/
def prosocialCheck (raw_metrics : List (String × ℚ)) : List String :=
  match raw_metrics.lookup "prosocial_ratio" with
  | none => []
  | some v => if (0.7 : ℚ) ≤ v then ["Strong prosocial content"] else []

/-- `generate_recommendations` from `scoring.py`: per-dimension strengths
(score ≥ 75) and concerns (score < 50) in iteration order, then the three
metric-specific checks.  The aggression and cuts checks can raise
`KeyError` for an unconfigured age band, which propagates to the caller. -/
def generate_recommendations (dimension_scores : List (String × ℚ))
    (raw_metrics : List (String × ℚ)) (age_band : String) :
    Except Unit (List String × List String) :=
  let strengths := dimension_scores.filterMap (fun p =>
    if (75 : ℚ) ≤ p.2 then some (p.1 ++ ": Excellent") else none)
  let concerns := dimension_scores.filterMap (fun p =>
    if p.2 < (50 : ℚ) then some (p.1 ++ ": Needs improvement") else none)
  match aggressionCheck raw_metrics age_band with
  | .error e => .error e
  | .ok c1 =>
    match cutsCheck raw_metrics age_band with
    | .error e => .error e
    | .ok c2 =>
      .ok (strengths ++ prosocialCheck raw_metrics, concerns ++ c1 ++ c2)

/-! ### The spec's piecewise interpolation formulas (§4.2)

Each is one open-interval formula of the spec, used to state boundary
continuity: at a piece boundary the returned score is compared with the
formulas of the two adjacent pieces. -/

/-- `higher_better` transition piece `0.8 · (value − hard_min)/(lo − hard_min)`. -/
def hbLowPiece (lo hm v : ℚ) : ℚ := 0.8 * ((v - hm) / (lo - hm))

/-- `higher_better` ideal piece `0.8 + 0.2 · (value − lo)/(hi − lo)`. -/
def hbIdealPiece (lo hi v : ℚ) : ℚ := 0.8 + 0.2 * ((v - lo) / (hi - lo))

/-- `lower_better` ideal piece `0.8 + 0.2 · (hi − value)/(hi − lo)`. -/
def lbIdealPiece (lo hi v : ℚ) : ℚ := 0.8 + 0.2 * ((hi - v) / (hi - lo))

/-- `lower_better` transition piece `0.8 · (hard_max − value)/(hard_max − hi)`. -/
def lbHighPiece (hi hmax v : ℚ) : ℚ := 0.8 * ((hmax - v) / (hmax - hi))

/-- `mid` lower transition piece `0.5 + 0.5 · (value − hard_min)/(lo − hard_min)`. -/
def midLowPiece (lo hm v : ℚ) : ℚ := 0.5 + 0.5 * ((v - hm) / (lo - hm))

/-- `mid` upper transition piece `0.5 + 0.5 · (hard_max − value)/(hard_max − hi)`. -/
def midHighPiece (hi hmax v : ℚ) : ℚ := 0.5 + 0.5 * ((hmax - v) / (hmax - hi))

/-! ### Pure closed forms of the three direction modes

`hbScore`, `lbScore` and `midScore` are the branch structure of
`normalize_metric` written with total rational division; the bridge lemmas
below show `normalizeWith` always returns `.score` of them (no division
fault), for `lower_better`/`mid` provided the `hard_max` key is present. -/

/-- Closed form of the `higher_better` branch. -/
def hbScore (lo hi hm v : ℚ) : ℚ :=
  if hi ≤ v then 1
  else if v ≤ hm then 0
  else if lo ≤ v then 0.8 + 0.2 * ((v - lo) / (hi - lo))
  else 0.8 * ((v - hm) / (lo - hm))

/-- Closed form of the `lower_better` branch (with `hard_max` present). -/
def lbScore (lo hi hmax v : ℚ) : ℚ :=
  if v ≤ lo then 1
  else if hmax ≤ v then 0
  else if v ≤ hi then 0.8 + 0.2 * ((hi - v) / (hi - lo))
  else 0.8 * ((hmax - v) / (hmax - hi))

/-- Closed form of the `mid` branch (with `hard_max` present). -/
def midScore (lo hi hm hmax v : ℚ) : ℚ :=
  if lo ≤ v ∧ v ≤ hi then 1
  else if v < lo then
    if v ≤ hm then 0 else 0.5 + 0.5 * ((v - hm) / (lo - hm))
  else
    if hmax ≤ v then 0 else 0.5 + 0.5 * ((hmax - v) / (hmax - hi))

/-- A `higher_better` configuration record. -/
def hbCfg (lo hi hm : ℚ) : MSpec := ⟨some lo, some hi, some hm, none, "higher_better"⟩

/-- A `lower_better` configuration record with its hard bound present. -/
def lbCfg (lo hi hmax : ℚ) : MSpec := ⟨some lo, some hi, none, some hmax, "lower_better"⟩

/-- A `mid` configuration record with both hard bounds present. -/
def midCfg (lo hi hm hmax : ℚ) : MSpec := ⟨some lo, some hi, some hm, some hmax, "mid"⟩

lemma normalizeWith_hb (cfg : MSpec) (v : ℚ) (hd : cfg.direction = "higher_better") :
    normalizeWith cfg v =
      .score (hbScore (cfg.ideal_low.getD 0) (cfg.ideal_high.getD 1)
        (cfg.hard_min.getD 0) v) := by
  set lo := cfg.ideal_low.getD 0 with hlo
  set hi := cfg.ideal_high.getD 1 with hhi
  set hm := cfg.hard_min.getD 0 with hhm
  unfold normalizeWith hbScore qdiv
  rw [hd]
  simp only [reduceIte, ← hlo, ← hhi, ← hhm]
  by_cases h1 : hi ≤ v
  · simp [h1]
  by_cases h2 : v ≤ hm
  · simp [h1, h2]
  by_cases h3 : lo ≤ v
  · have hne : hi - lo ≠ 0 := by
      have : lo < hi := lt_of_le_of_lt h3 (not_le.mp h1)
      exact sub_ne_zero.mpr (ne_of_gt this)
    simp [h1, h2, h3, hne]
  · have hne : lo - hm ≠ 0 := by
      have : hm < lo := lt_trans (not_le.mp h2) (not_le.mp h3)
      exact sub_ne_zero.mpr (ne_of_gt this)
    simp [h1, h2, h3, hne]

lemma normalizeWith_lb (cfg : MSpec) (v hmax : ℚ)
    (hd : cfg.direction = "lower_better") (hx : cfg.hard_max = some hmax) :
    normalizeWith cfg v =
      .score (lbScore (cfg.ideal_low.getD 0) (cfg.ideal_high.getD 1) hmax v) := by
  set lo := cfg.ideal_low.getD 0 with hlo
  set hi := cfg.ideal_high.getD 1 with hhi
  unfold normalizeWith lbScore qdiv
  rw [hd, hx]
  simp only [reduceIte, String.reduceEq, ← hlo, ← hhi]
  by_cases h1 : v ≤ lo
  · simp [h1]
  by_cases h2 : hmax ≤ v
  · simp [h1, h2]
  by_cases h3 : v ≤ hi
  · have hne : hi - lo ≠ 0 := by
      have : lo < hi := lt_of_lt_of_le (not_le.mp h1) h3
      exact sub_ne_zero.mpr (ne_of_gt this)
    simp [h1, h2, h3, hne]
  · have hne : hmax - hi ≠ 0 := by
      have : hi < hmax := lt_trans (not_le.mp h3) (not_le.mp h2)
      exact sub_ne_zero.mpr (ne_of_gt this)
    simp [h1, h2, h3, hne]

lemma normalizeWith_mid (cfg : MSpec) (v hmax : ℚ)
    (hd : cfg.direction = "mid") (hx : cfg.hard_max = some hmax) :
    normalizeWith cfg v =
      .score (midScore (cfg.ideal_low.getD 0) (cfg.ideal_high.getD 1)
        (cfg.hard_min.getD 0) hmax v) := by
  set lo := cfg.ideal_low.getD 0 with hlo
  set hi := cfg.ideal_high.getD 1 with hhi
  set hm := cfg.hard_min.getD 0 with hhm
  unfold normalizeWith midScore qdiv
  rw [hd, hx]
  simp only [reduceIte, String.reduceEq, ← hlo, ← hhi, ← hhm]
  by_cases h1 : lo ≤ v ∧ v ≤ hi
  · simp [h1]
  by_cases h2 : v < lo
  · by_cases h3 : v ≤ hm
    · simp [h1, h2, h3]
    · have hne : lo - hm ≠ 0 := by
        have : hm < lo := lt_trans (not_le.mp h3) h2
        exact sub_ne_zero.mpr (ne_of_gt this)
      simp [h1, h2, h3, hne]
  · by_cases h3 : hmax ≤ v
    · simp [h1, h2, h3]
    · have hne : hmax - hi ≠ 0 := by
        have hvhi : hi < v := by
          rcases not_and_or.mp h1 with h | h
          · exact absurd (le_of_not_lt h2) h
          · exact not_le.mp h
        have : hi < hmax := lt_trans hvhi (not_le.mp h3)
        exact sub_ne_zero.mpr (ne_of_gt this)
      simp [h1, h2, h3, hne]

/-! ### Branch-evaluation, range and monotonicity lemmas for the closed forms -/

lemma hb_eval_top {lo hi hm v : ℚ} (h : hi ≤ v) : hbScore lo hi hm v = 1 := by
  unfold hbScore; rw [if_pos h]

lemma hb_eval_bot {lo hi hm v : ℚ} (h1 : v < hi) (h2 : v ≤ hm) :
    hbScore lo hi hm v = 0 := by
  unfold hbScore; rw [if_neg (not_le.mpr h1), if_pos h2]

lemma hb_eval_ideal {lo hi hm v : ℚ} (h1 : v < hi) (h2 : hm < v) (h3 : lo ≤ v) :
    hbScore lo hi hm v = 0.8 + 0.2 * ((v - lo) / (hi - lo)) := by
  unfold hbScore; rw [if_neg (not_le.mpr h1), if_neg (not_le.mpr h2), if_pos h3]

lemma hb_eval_low {lo hi hm v : ℚ} (h1 : v < hi) (h2 : hm < v) (h3 : v < lo) :
    hbScore lo hi hm v = 0.8 * ((v - hm) / (lo - hm)) := by
  unfold hbScore
  rw [if_neg (not_le.mpr h1), if_neg (not_le.mpr h2), if_neg (not_le.mpr h3)]

lemma hbScore_range (lo hi hm v : ℚ) :
    0 ≤ hbScore lo hi hm v ∧ hbScore lo hi hm v ≤ 1 := by
  rcases le_or_lt hi v with h1 | h1
  · rw [hb_eval_top h1]; norm_num
  rcases le_or_lt v hm with h2 | h2
  · rw [hb_eval_bot h1 h2]; norm_num
  rcases le_or_lt lo v with h3 | h3
  · rw [hb_eval_ideal h1 h2 h3]
    have hpos : (0 : ℚ) < hi - lo := by linarith
    have ht0 : 0 ≤ (v - lo) / (hi - lo) := div_nonneg (by linarith) (le_of_lt hpos)
    have ht1 : (v - lo) / (hi - lo) ≤ 1 := by rw [div_le_one hpos]; linarith
    constructor <;> linarith
  · rw [hb_eval_low h1 h2 h3]
    have hpos : (0 : ℚ) < lo - hm := by linarith
    have ht0 : 0 ≤ (v - hm) / (lo - hm) := div_nonneg (by linarith) (le_of_lt hpos)
    have ht1 : (v - hm) / (lo - hm) ≤ 1 := by rw [div_le_one hpos]; linarith
    constructor <;> linarith

lemma hbScore_mono (lo hi hm v1 v2 : ℚ) (h12 : v1 ≤ v2) :
    hbScore lo hi hm v1 ≤ hbScore lo hi hm v2 := by
  rcases le_or_lt hi v1 with a1 | a1
  · rw [hb_eval_top a1, hb_eval_top (le_trans a1 h12)]
  rcases le_or_lt v1 hm with b1 | b1
  · rw [hb_eval_bot a1 b1]; exact (hbScore_range lo hi hm v2).1
  rcases lt_or_le v1 lo with c1 | c1
  · rw [hb_eval_low a1 b1 c1]
    have hpos : (0 : ℚ) < lo - hm := by linarith
    have ht1 : (v1 - hm) / (lo - hm) ≤ 1 := by rw [div_le_one hpos]; linarith
    have ht0 : 0 ≤ (v1 - hm) / (lo - hm) := div_nonneg (by linarith) (le_of_lt hpos)
    rcases le_or_lt hi v2 with a2 | a2
    · rw [hb_eval_top a2]; linarith
    rcases le_or_lt v2 hm with b2 | b2
    · linarith
    rcases lt_or_le v2 lo with c2 | c2
    · rw [hb_eval_low a2 b2 c2]
      have := (div_le_div_iff_of_pos_right hpos).mpr (show v1 - hm ≤ v2 - hm by linarith)
      linarith
    · rw [hb_eval_ideal a2 b2 c2]
      have hpos2 : (0 : ℚ) < hi - lo := by linarith
      have hs0 : 0 ≤ (v2 - lo) / (hi - lo) := div_nonneg (by linarith) (le_of_lt hpos2)
      linarith
  · rw [hb_eval_ideal a1 b1 c1]
    have hpos : (0 : ℚ) < hi - lo := by linarith
    rcases le_or_lt hi v2 with a2 | a2
    · rw [hb_eval_top a2]
      have ht1 : (v1 - lo) / (hi - lo) ≤ 1 := by rw [div_le_one hpos]; linarith
      linarith
    · rw [hb_eval_ideal a2 (by linarith) (le_trans c1 h12)]
      have := (div_le_div_iff_of_pos_right hpos).mpr (show v1 - lo ≤ v2 - lo by linarith)
      linarith

lemma lb_eval_top {lo hi hmax v : ℚ} (h : v ≤ lo) : lbScore lo hi hmax v = 1 := by
  unfold lbScore; rw [if_pos h]

lemma lb_eval_zero {lo hi hmax v : ℚ} (h1 : lo < v) (h2 : hmax ≤ v) :
    lbScore lo hi hmax v = 0 := by
  unfold lbScore; rw [if_neg (not_le.mpr h1), if_pos h2]

lemma lb_eval_ideal {lo hi hmax v : ℚ} (h1 : lo < v) (h2 : v < hmax) (h3 : v ≤ hi) :
    lbScore lo hi hmax v = 0.8 + 0.2 * ((hi - v) / (hi - lo)) := by
  unfold lbScore; rw [if_neg (not_le.mpr h1), if_neg (not_le.mpr h2), if_pos h3]

lemma lb_eval_high {lo hi hmax v : ℚ} (h1 : lo < v) (h2 : v < hmax) (h3 : hi < v) :
    lbScore lo hi hmax v = 0.8 * ((hmax - v) / (hmax - hi)) := by
  unfold lbScore
  rw [if_neg (not_le.mpr h1), if_neg (not_le.mpr h2), if_neg (not_le.mpr h3)]

lemma lbScore_range (lo hi hmax v : ℚ) :
    0 ≤ lbScore lo hi hmax v ∧ lbScore lo hi hmax v ≤ 1 := by
  rcases le_or_lt v lo with h1 | h1
  · rw [lb_eval_top h1]; norm_num
  rcases le_or_lt hmax v with h2 | h2
  · rw [lb_eval_zero h1 h2]; norm_num
  rcases le_or_lt v hi with h3 | h3
  · rw [lb_eval_ideal h1 h2 h3]
    have hpos : (0 : ℚ) < hi - lo := by linarith
    have ht0 : 0 ≤ (hi - v) / (hi - lo) := div_nonneg (by linarith) (le_of_lt hpos)
    have ht1 : (hi - v) / (hi - lo) ≤ 1 := by rw [div_le_one hpos]; linarith
    constructor <;> linarith
  · rw [lb_eval_high h1 h2 h3]
    have hpos : (0 : ℚ) < hmax - hi := by linarith
    have ht0 : 0 ≤ (hmax - v) / (hmax - hi) := div_nonneg (by linarith) (le_of_lt hpos)
    have ht1 : (hmax - v) / (hmax - hi) ≤ 1 := by rw [div_le_one hpos]; linarith
    constructor <;> linarith

lemma lbScore_antitone (lo hi hmax v1 v2 : ℚ) (h12 : v1 ≤ v2) :
    lbScore lo hi hmax v2 ≤ lbScore lo hi hmax v1 := by
  rcases le_or_lt v2 lo with a2 | a2
  · rw [lb_eval_top a2, lb_eval_top (le_trans h12 a2)]
  rcases le_or_lt hmax v2 with b2 | b2
  · rw [lb_eval_zero a2 b2]; exact (lbScore_range lo hi hmax v1).1
  rcases le_or_lt v2 hi with c2 | c2
  · rw [lb_eval_ideal a2 b2 c2]
    have hpos : (0 : ℚ) < hi - lo := by linarith
    have ht1 : (hi - v2) / (hi - lo) ≤ 1 := by rw [div_le_one hpos]; linarith
    rcases le_or_lt v1 lo with a1 | a1
    · rw [lb_eval_top a1]; linarith
    · rw [lb_eval_ideal a1 (by linarith) (le_trans h12 c2)]
      have := (div_le_div_iff_of_pos_right hpos).mpr (show hi - v2 ≤ hi - v1 by linarith)
      linarith
  · rw [lb_eval_high a2 b2 c2]
    have hpos : (0 : ℚ) < hmax - hi := by linarith
    have ht1 : (hmax - v2) / (hmax - hi) ≤ 1 := by rw [div_le_one hpos]; linarith
    have ht0 : 0 ≤ (hmax - v2) / (hmax - hi) := div_nonneg (by linarith) (le_of_lt hpos)
    rcases le_or_lt v1 lo with a1 | a1
    · rw [lb_eval_top a1]; linarith
    rcases le_or_lt v1 hi with c1 | c1
    · rw [lb_eval_ideal a1 (by linarith) c1]
      have hpos2 : (0 : ℚ) < hi - lo := by linarith
      have hs0 : 0 ≤ (hi - v1) / (hi - lo) := div_nonneg (by linarith) (le_of_lt hpos2)
      linarith
    · rw [lb_eval_high a1 (by linarith) c1]
      have := (div_le_div_iff_of_pos_right hpos).mpr
        (show hmax - v2 ≤ hmax - v1 by linarith)
      linarith

lemma mid_eval_ideal {lo hi hm hmax v : ℚ} (h1 : lo ≤ v) (h2 : v ≤ hi) :
    midScore lo hi hm hmax v = 1 := by
  unfold midScore; rw [if_pos ⟨h1, h2⟩]

lemma mid_eval_bot {lo hi hm hmax v : ℚ} (h1 : v < lo) (h2 : v ≤ hm) :
    midScore lo hi hm hmax v = 0 := by
  unfold midScore
  rw [if_neg (by rintro ⟨h, -⟩; exact absurd h (not_le.mpr h1)), if_pos h1, if_pos h2]

lemma mid_eval_below {lo hi hm hmax v : ℚ} (h1 : v < lo) (h2 : hm < v) :
    midScore lo hi hm hmax v = 0.5 + 0.5 * ((v - hm) / (lo - hm)) := by
  unfold midScore
  rw [if_neg (by rintro ⟨h, -⟩; exact absurd h (not_le.mpr h1)), if_pos h1,
    if_neg (not_le.mpr h2)]

lemma mid_eval_zero {lo hi hm hmax v : ℚ} (h1 : lo ≤ v) (h2 : hi < v) (h3 : hmax ≤ v) :
    midScore lo hi hm hmax v = 0 := by
  unfold midScore
  rw [if_neg (by rintro ⟨-, h⟩; exact absurd h (not_le.mpr h2)),
    if_neg (not_lt.mpr h1), if_pos h3]

lemma mid_eval_above {lo hi hm hmax v : ℚ} (h1 : lo ≤ v) (h2 : hi < v) (h3 : v < hmax) :
    midScore lo hi hm hmax v = 0.5 + 0.5 * ((hmax - v) / (hmax - hi)) := by
  unfold midScore
  rw [if_neg (by rintro ⟨-, h⟩; exact absurd h (not_le.mpr h2)),
    if_neg (not_lt.mpr h1), if_neg (not_le.mpr h3)]

lemma midScore_range (lo hi hm hmax v : ℚ) (_hlh : lo ≤ hi) :
    0 ≤ midScore lo hi hm hmax v ∧ midScore lo hi hm hmax v ≤ 1 := by
  rcases lt_or_le v lo with h1 | h1
  · rcases le_or_lt v hm with h2 | h2
    · rw [mid_eval_bot h1 h2]; norm_num
    · rw [mid_eval_below h1 h2]
      have hpos : (0 : ℚ) < lo - hm := by linarith
      have ht0 : 0 ≤ (v - hm) / (lo - hm) := div_nonneg (by linarith) (le_of_lt hpos)
      have ht1 : (v - hm) / (lo - hm) ≤ 1 := by rw [div_le_one hpos]; linarith
      constructor <;> linarith
  rcases le_or_lt v hi with h2 | h2
  · rw [mid_eval_ideal h1 h2]; norm_num
  rcases le_or_lt hmax v with h3 | h3
  · rw [mid_eval_zero h1 h2 h3]; norm_num
  · rw [mid_eval_above h1 h2 h3]
    have hpos : (0 : ℚ) < hmax - hi := by linarith
    have ht0 : 0 ≤ (hmax - v) / (hmax - hi) := div_nonneg (by linarith) (le_of_lt hpos)
    have ht1 : (hmax - v) / (hmax - hi) ≤ 1 := by rw [div_le_one hpos]; linarith
    constructor <;> linarith

lemma midScore_mono_below (lo hi hm hmax v1 v2 : ℚ) (hlh : lo ≤ hi)
    (h12 : v1 ≤ v2) (h2hi : v2 ≤ hi) :
    midScore lo hi hm hmax v1 ≤ midScore lo hi hm hmax v2 := by
  rcases le_or_lt lo v2 with a2 | a2
  · rw [mid_eval_ideal a2 h2hi]
    exact (midScore_range lo hi hm hmax v1 hlh).2
  rcases le_or_lt v1 hm with b1 | b1
  · rw [mid_eval_bot (by linarith) b1]
    exact (midScore_range lo hi hm hmax v2 hlh).1
  · rw [mid_eval_below (by linarith) b1, mid_eval_below a2 (by linarith)]
    have hpos : (0 : ℚ) < lo - hm := by linarith
    have := (div_le_div_iff_of_pos_right hpos).mpr (show v1 - hm ≤ v2 - hm by linarith)
    linarith

lemma midScore_anti_above (lo hi hm hmax v1 v2 : ℚ) (hlh : lo ≤ hi)
    (h12 : v1 ≤ v2) (h1hi : hi ≤ v1) :
    midScore lo hi hm hmax v2 ≤ midScore lo hi hm hmax v1 := by
  rcases le_or_lt v1 hi with c1 | c1
  · have hv1 : v1 = hi := le_antisymm c1 h1hi
    rw [hv1, mid_eval_ideal hlh (le_refl hi)]
    exact (midScore_range lo hi hm hmax v2 hlh).2
  rcases le_or_lt hmax v1 with d1 | d1
  · rw [mid_eval_zero (by linarith) c1 d1,
      mid_eval_zero (by linarith) (by linarith) (by linarith)]
  · rw [mid_eval_above (by linarith) c1 d1]
    have hpos : (0 : ℚ) < hmax - hi := by linarith
    have ht0 : 0 ≤ (hmax - v1) / (hmax - hi) := div_nonneg (by linarith) (le_of_lt hpos)
    rcases le_or_lt hmax v2 with d2 | d2
    · rw [mid_eval_zero (by linarith) (by linarith) d2]; linarith
    · rw [mid_eval_above (by linarith) (by linarith) d2]
      have := (div_le_div_iff_of_pos_right hpos).mpr
        (show hmax - v2 ≤ hmax - v1 by linarith)
      linarith

/-! ### No division fault is reachable in the normalizer -/

lemma normalizeWith_ne_divFault (cfg : MSpec) (v : ℚ) :
    normalizeWith cfg v ≠ .divFault := by
  by_cases d1 : cfg.direction = "higher_better"
  · rw [normalizeWith_hb cfg v d1]; simp
  by_cases d2 : cfg.direction = "lower_better"
  · rcases hx : cfg.hard_max with _ | hmax
    · unfold normalizeWith qdiv
      rw [d2, hx]
      set lo := cfg.ideal_low.getD 0 with hlo
      set hi := cfg.ideal_high.getD 1 with hhi
      simp only [String.reduceEq, reduceIte, if_false, if_true]
      by_cases h1 : v ≤ lo
      · simp [h1]
      by_cases h3 : v ≤ hi
      · have hne : hi - lo ≠ 0 :=
          sub_ne_zero.mpr (ne_of_gt (lt_of_lt_of_le (not_le.mp h1) h3))
        simp [h1, h3, hne]
      · simp [h1, h3]
    · rw [normalizeWith_lb cfg v hmax d2 hx]; simp
  by_cases d3 : cfg.direction = "mid"
  · rcases hx : cfg.hard_max with _ | hmax
    · unfold normalizeWith qdiv
      rw [d3, hx]
      set lo := cfg.ideal_low.getD 0 with hlo
      set hi := cfg.ideal_high.getD 1 with hhi
      set hm := cfg.hard_min.getD 0 with hhm
      simp only [String.reduceEq, reduceIte, if_false, if_true]
      by_cases h1 : lo ≤ v ∧ v ≤ hi
      · simp [h1]
      by_cases h2 : v < lo
      · by_cases h3 : v ≤ hm
        · simp [h1, h2, h3]
        · have hne : lo - hm ≠ 0 :=
            sub_ne_zero.mpr (ne_of_gt (lt_trans (not_le.mp h3) h2))
          simp [h1, h2, h3, hne]
      · simp [h1, h2]
    · rw [normalizeWith_mid cfg v hmax d3 hx]; simp
  · unfold normalizeWith
    simp [d1, d2, d3]

lemma normalize_metric_ne_divFault (metric_name : String) (v : ℚ) (age_band : String) :
    normalize_metric metric_name v age_band ≠ .divFault := by
  unfold normalize_metric
  cases lookupSpec metric_name age_band with
  | none => simp
  | some cfg => exact normalizeWith_ne_divFault cfg v

/-! ### Association-list helpers -/

lemma lookup_mem_snd {β : Type} :
    ∀ (l : List (String × β)) (a : String) (b : β),
      List.lookup a l = some b → b ∈ l.map Prod.snd := by
  intro l
  induction l with
  | nil => intro a b h; simp [List.lookup] at h
  | cons p rest ih =>
    intro a b h
    rcases p with ⟨k, w⟩
    rw [List.lookup] at h
    cases hab : a == k with
    | true => rw [hab] at h; simp at h; simp [h]
    | false =>
      rw [hab] at h
      simp only [List.map_cons, List.mem_cons]
      exact Or.inr (ih a b h)

lemma lookup_map_fst {β γ : Type} (f : String → γ) :
    ∀ (l : List (String × β)) (d : String), d ∈ l.map Prod.fst →
      List.lookup d (l.map (fun p => (p.1, f p.1))) = some (f d) := by
  intro l
  induction l with
  | nil => intro d h; simp at h
  | cons p rest ih =>
    intro d h
    rcases p with ⟨k, b⟩
    by_cases hdk : d = k
    · subst hdk
      simp [List.lookup]
    · have hmem : d ∈ rest.map Prod.fst := by
        rcases List.mem_cons.mp h with h' | h'
        · exact absurd h' hdk
        · exact h'
      have hbeq : (d == k) = false := beq_eq_false_iff_ne.mpr hdk
      simp only [List.map_cons, List.lookup, hbeq]
      exact ih d hmem

/-- Looking up a declared dimension in the `risk_scores` dict always
succeeds, and yields `100 − score` (or the neutral 50). -/
lemma riskScores_lookup (ds : List (String × ℚ)) (d : String)
    (h : d ∈ DIMENSIONS.map Prod.fst) :
    List.lookup d (riskScores ds) =
      some (match List.lookup d ds with
            | some s => 100 - s
            | none => 50) := by
  exact lookup_map_fst
    (fun d => match List.lookup d ds with
              | some s => 100 - s
              | none => 50) DIMENSIONS d h

/-! ### Weighted-fold helpers -/

lemma foldl_lookup_add (ds : List (String × ℚ)) :
    ∀ (ws : List (String × ℚ)) (acc : ℚ),
      ws.foldl (fun acc p =>
        match List.lookup p.1 ds with
        | some s => acc + p.2 * s
        | none => acc) acc
      = acc + (ws.map (fun p => p.2 *
          (match List.lookup p.1 ds with
           | some s => s
           | none => 0))).sum := by
  intro ws
  induction ws with
  | nil => intro acc; simp
  | cons p rest ih =>
    intro acc
    rcases p with ⟨d, w⟩
    rw [List.foldl_cons, List.map_cons, List.sum_cons]
    cases hl : List.lookup d ds with
    | none => rw [ih]; ring
    | some s => rw [ih]; ring

lemma sum_weighted_bounds (ds : List (String × ℚ)) :
    ∀ (ws : List (String × ℚ)),
      (∀ p ∈ ws, 0 ≤ p.2 ∧
        ∃ s, List.lookup p.1 ds = some s ∧ 0 ≤ s ∧ s ≤ 100) →
      0 ≤ (ws.map (fun p => p.2 *
            (match List.lookup p.1 ds with
             | some s => s
             | none => 0))).sum ∧
      (ws.map (fun p => p.2 *
            (match List.lookup p.1 ds with
             | some s => s
             | none => 0))).sum ≤ 100 * (ws.map Prod.snd).sum := by
  intro ws
  induction ws with
  | nil => intro _; simp
  | cons p rest ih =>
    intro h
    rcases h p (List.mem_cons_self p rest) with ⟨hw, s, hs, hs0, hs100⟩
    have hrest := ih (fun q hq => h q (List.mem_cons_of_mem p hq))
    rcases p with ⟨d, w⟩
    simp only at hw hs
    rw [List.map_cons, List.sum_cons, List.map_cons, List.sum_cons, hs]
    simp only
    constructor
    · have hws : 0 ≤ w * s := mul_nonneg hw hs0
      linarith [hrest.1]
    · have hws : w * s ≤ w * 100 := mul_le_mul_of_nonneg_left hs100 hw
      linarith [hrest.2]

/-! ### Closed form of `compute_dimension_scores` -/

/-- View a normalizer outcome as a float (the fault case never occurs). -/
def NormOut.pyf : NormOut → PyF
  | .score q => some q
  | _ => none

/-- The declared metrics of a dimension that are present in `raw_metrics`,
paired with their raw values, in declaration order. -/
def presentPairs (metric_names : List String) (raw : List (String × ℚ)) :
    List (String × ℚ) :=
  metric_names.filterMap (fun m => (List.lookup m raw).map (fun v => (m, v)))

/-- Specified dimension score (from the spec's words): the plain average of
the normalized scores of exactly the declared metrics present in
`raw_metrics`, scaled by 100; the neutral `50.0` when none is present. -/
def dimSpecScore (metric_names : List String) (raw : List (String × ℚ))
    (age_band : String) : PyF :=
  let vals := (presentPairs metric_names raw).map
    (fun p => (normalize_metric p.1 p.2 age_band).pyf)
  if vals = [] then some 50
  else (pySum vals).map (fun s => s / (vals.length : ℚ) * 100)

lemma collectScores_ok (raw : List (String × ℚ)) (age_band : String) :
    ∀ metric_names, collectScores metric_names raw age_band =
      .ok ((presentPairs metric_names raw).map
        (fun p => (normalize_metric p.1 p.2 age_band).pyf)) := by
  intro metric_names
  induction metric_names with
  | nil => simp [collectScores, presentPairs]
  | cons m rest ih =>
    unfold collectScores presentPairs
    cases hl : List.lookup m raw with
    | none =>
      simp only [hl, List.filterMap_cons, Option.map_none]
      exact ih
    | some v =>
      cases hn : normalize_metric m v age_band with
      | divFault => exact absurd hn (normalize_metric_ne_divFault m v age_band)
      | score q =>
        rw [ih]
        simp [hl, hn, presentPairs, NormOut.pyf, Except.map]
      | nanScore =>
        rw [ih]
        simp [hl, hn, presentPairs, NormOut.pyf, Except.map]

lemma dimLoop_ok (raw : List (String × ℚ)) (age_band : String) :
    ∀ dims, dimLoop raw age_band dims =
      .ok (dims.map (fun p => (p.1, dimSpecScore p.2 raw age_band))) := by
  intro dims
  induction dims with
  | nil => simp [dimLoop]
  | cons p rest ih =>
    rcases p with ⟨d, ms⟩
    unfold dimLoop
    rw [collectScores_ok raw age_band ms, ih]
    simp [dimSpecScore]

/-! ### Reference (specified) composite scores -/

/-- Specified Developmental Score: the weighted sum of the present
dimension scores over the age band's profile (equal weights when the band
has no profile); a dimension missing from `dimension_scores` contributes 0. -/
def devScoreRef (dimension_scores : List (String × ℚ)) (age_band : String) : ℚ :=
  let weights :=
    match DEV_WEIGHTS.lookup age_band with
    | none => equalWeights
    | some w => w
  (weights.map (fun p => p.2 *
    (match List.lookup p.1 dimension_scores with
     | some s => s
     | none => 0))).sum

/-- Specified Brainrot Index as the code computes it: the weighted sum of
`100 − score` for the present dimensions and of the neutral risk `50` for
the missing ones, over the age band's brainrot profile (equal weights when
the band has no profile). -/
def brainrotIndexRef (dimension_scores : List (String × ℚ)) (age_band : String) : ℚ :=
  let weights :=
    match BRAINROT_WEIGHTS.lookup age_band with
    | none => equalWeights
    | some w => w
  (weights.map (fun p => p.2 *
    (match List.lookup p.1 dimension_scores with
     | some s => 100 - s
     | none => 50))).sum

lemma aggregate_dev_eq_ref (dimension_scores : List (String × ℚ))
    (age_band : String) :
    aggregate_dev_score dimension_scores age_band =
      devScoreRef dimension_scores age_band := by
  unfold aggregate_dev_score devScoreRef
  cases DEV_WEIGHTS.lookup age_band with
  | none => simp only [foldl_lookup_add, zero_add]
  | some w => simp only [foldl_lookup_add, zero_add]

/-- Every dimension named by a weight profile (configured or fallback) is a
declared dimension. -/
lemma weights_keys_sub (age_band : String) :
    ∀ p ∈ (match BRAINROT_WEIGHTS.lookup age_band with
           | none => equalWeights
           | some w => w),
      p.1 ∈ DIMENSIONS.map Prod.fst := by
  cases hw : BRAINROT_WEIGHTS.lookup age_band with
  | none =>
    intro p hp
    rcases List.mem_map.mp hp with ⟨q, hq, rfl⟩
    exact List.mem_map.mpr ⟨q, hq, rfl⟩
  | some w =>
    have hmem : w ∈ BRAINROT_WEIGHTS.map Prod.snd :=
      lookup_mem_snd BRAINROT_WEIGHTS age_band w hw
    simp only [BRAINROT_WEIGHTS, List.map_cons, List.map_nil,
      List.mem_cons, List.not_mem_nil, or_false] at hmem
    rcases hmem with h | h | h | h <;> subst h <;> decide

lemma aggregate_brainrot_eq_ref (dimension_scores : List (String × ℚ))
    (age_band : String) :
    aggregate_brainrot_index dimension_scores age_band =
      brainrotIndexRef dimension_scores age_band := by
  unfold aggregate_brainrot_index brainrotIndexRef
  have hkeys := weights_keys_sub age_band
  cases hw : BRAINROT_WEIGHTS.lookup age_band with
  | none =>
    rw [hw] at hkeys
    simp only [foldl_lookup_add, zero_add]
    refine congrArg List.sum (List.map_congr_left ?_)
    intro p hp
    rw [riskScores_lookup dimension_scores p.1 (hkeys p hp)]
  | some w =>
    rw [hw] at hkeys
    simp only [foldl_lookup_add, zero_add]
    refine congrArg List.sum (List.map_congr_left ?_)
    intro p hp
    rw [riskScores_lookup dimension_scores p.1 (hkeys p hp)]

/-! ## Claim theorems -/

/-- C1 counterexample: with an empty `dimension_scores` and band `G1_0_2`,
the claim says the Brainrot Index equals the weighted sum over the present
dimensions only, i.e. 0; the code returns 50 (every missing dimension gets
the neutral risk 50), while `aggregate_dev_score` does return 0. -/
theorem C1_counterexample :
    aggregate_brainrot_index [] "G1_0_2" = 50 ∧
    ¬ aggregate_brainrot_index [] "G1_0_2" = 0 ∧
    aggregate_dev_score [] "G1_0_2" = 0 := by
  have hb : aggregate_brainrot_index [] "G1_0_2" = 50 := by
    simp +decide [aggregate_brainrot_index, BRAINROT_WEIGHTS, riskScores,
      DIMENSIONS, List.lookup]
    norm_num
  refine ⟨hb, by rw [hb]; norm_num, ?_⟩
  simp +decide [aggregate_dev_score, DEV_WEIGHTS, List.lookup]

/-- C1 (amended): the Brainrot Index's missing-entry policy differs from
the Developmental Score's.  For every age band and every
`dimension_scores` mapping, `aggregate_brainrot_index` is the weighted sum
over the age band's brainrot profile (equal-weight fallback for unknown
bands) of `100 − score` for present dimensions and of the *neutral risk 50*
for dimensions missing from `dimension_scores` — whereas
`aggregate_dev_score` is the weighted sum in which missing dimensions
contribute 0. -/
theorem C1_brainrot_missing_entry_neutral :
    ∀ (dimension_scores : List (String × ℚ)) (age_band : String),
      aggregate_brainrot_index dimension_scores age_band =
        brainrotIndexRef dimension_scores age_band ∧
      aggregate_dev_score dimension_scores age_band =
        devScoreRef dimension_scores age_band :=
  fun ds band =>
    ⟨aggregate_brainrot_eq_ref ds band, aggregate_dev_eq_ref ds band⟩

/-- C2 counterexample: for the configured pair (`cuts_per_minute`,
`G3_3_5`) — `mid`, `ideal_high = 12`, `hard_max = 30` — the score at
`value = hard_max = 30` is 0, while the adjacent piecewise formula
`0.5 + 0.5·(hard_max − value)/(hard_max − ideal_high)` evaluates to 0.5
there: a jump at `hard_max` in `mid` mode. -/
theorem C2_counterexample :
    normalize_metric "cuts_per_minute" 30 "G3_3_5" = .score 0 ∧
    midHighPiece 12 30 30 = 0.5 ∧
    ¬ normalize_metric "cuts_per_minute" 30 "G3_3_5"
        = .score (midHighPiece 12 30 30) := by
  have h1 : normalize_metric "cuts_per_minute" 30 "G3_3_5" = .score 0 := by
    simp +decide [normalize_metric, lookupSpec, METRIC_CONFIG, normalizeWith,
      qdiv, List.lookup]
  have h2 : midHighPiece 12 30 30 = 0.5 := by unfold midHighPiece; norm_num
  refine ⟨h1, h2, ?_⟩
  rw [h1, h2]
  intro h
  have := NormOut.score.inj h
  norm_num at this

/-- C2 (amended): for every configuration with `hard_min < ideal_low <
ideal_high < hard_max`, `normalize_metric` is continuous at `ideal_low` and
`ideal_high` in all three modes and at `hard_min` (`higher_better`) /
`hard_max` (`lower_better`) — the score there equals both adjacent piecewise
formulas; but in `mid` mode the score at `hard_min` and at `hard_max` is
0.0 while the adjacent interpolation formula evaluates to 0.5, a jump of
0.5 at both hard bounds. -/
theorem C2_boundary_continuity_amended :
    ∀ lo hi hm hmax : ℚ, hm < lo → lo < hi → hi < hmax →
      (normalizeWith (hbCfg lo hi hm) hi = .score 1 ∧ hbIdealPiece lo hi hi = 1) ∧
      (normalizeWith (hbCfg lo hi hm) lo = .score 0.8 ∧
        hbIdealPiece lo hi lo = 0.8 ∧ hbLowPiece lo hm lo = 0.8) ∧
      (normalizeWith (hbCfg lo hi hm) hm = .score 0 ∧ hbLowPiece lo hm hm = 0) ∧
      (normalizeWith (lbCfg lo hi hmax) lo = .score 1 ∧ lbIdealPiece lo hi lo = 1) ∧
      (normalizeWith (lbCfg lo hi hmax) hi = .score 0.8 ∧
        lbIdealPiece lo hi hi = 0.8 ∧ lbHighPiece hi hmax hi = 0.8) ∧
      (normalizeWith (lbCfg lo hi hmax) hmax = .score 0 ∧
        lbHighPiece hi hmax hmax = 0) ∧
      (normalizeWith (midCfg lo hi hm hmax) lo = .score 1 ∧
        midLowPiece lo hm lo = 1) ∧
      (normalizeWith (midCfg lo hi hm hmax) hi = .score 1 ∧
        midHighPiece hi hmax hi = 1) ∧
      (normalizeWith (midCfg lo hi hm hmax) hm = .score 0 ∧
        midLowPiece lo hm hm = 0.5) ∧
      (normalizeWith (midCfg lo hi hm hmax) hmax = .score 0 ∧
        midHighPiece hi hmax hmax = 0.5) := by
  intro lo hi hm hmax h1 h2 h3
  have hb : ∀ v, normalizeWith (hbCfg lo hi hm) v = .score (hbScore lo hi hm v) := by
    intro v
    have := normalizeWith_hb (hbCfg lo hi hm) v rfl
    simpa [hbCfg] using this
  have lb : ∀ v, normalizeWith (lbCfg lo hi hmax) v = .score (lbScore lo hi hmax v) := by
    intro v
    have := normalizeWith_lb (lbCfg lo hi hmax) v hmax rfl rfl
    simpa [lbCfg] using this
  have md : ∀ v, normalizeWith (midCfg lo hi hm hmax) v
      = .score (midScore lo hi hm hmax v) := by
    intro v
    have := normalizeWith_mid (midCfg lo hi hm hmax) v hmax rfl rfl
    simpa [midCfg] using this
  have hhl : hi - lo ≠ 0 := sub_ne_zero.mpr (ne_of_gt h2)
  have hlm : lo - hm ≠ 0 := sub_ne_zero.mpr (ne_of_gt h1)
  have hmh : hmax - hi ≠ 0 := sub_ne_zero.mpr (ne_of_gt h3)
  refine ⟨⟨?_, ?_⟩, ⟨?_, ?_, ?_⟩, ⟨?_, ?_⟩, ⟨?_, ?_⟩, ⟨?_, ?_, ?_⟩, ⟨?_, ?_⟩,
    ⟨?_, ?_⟩, ⟨?_, ?_⟩, ⟨?_, ?_⟩, ⟨?_, ?_⟩⟩
  · rw [hb hi, hb_eval_top (le_refl hi)]
  · unfold hbIdealPiece; rw [div_self hhl]; norm_num
  · rw [hb lo, hb_eval_ideal h2 h1 (le_refl lo)]; norm_num
  · unfold hbIdealPiece; norm_num
  · unfold hbLowPiece; rw [div_self hlm]; norm_num
  · rw [hb hm, hb_eval_bot (lt_trans h1 h2) (le_refl hm)]
  · unfold hbLowPiece; norm_num
  · rw [lb lo, lb_eval_top (le_refl lo)]
  · unfold lbIdealPiece; rw [div_self hhl]; norm_num
  · rw [lb hi, lb_eval_ideal h2 h3 (le_refl hi)]; norm_num
  · unfold lbIdealPiece; norm_num
  · unfold lbHighPiece; rw [div_self hmh]; norm_num
  · rw [lb hmax, lb_eval_zero (lt_trans h2 h3) (le_refl hmax)]
  · unfold lbHighPiece; norm_num
  · rw [md lo, mid_eval_ideal (le_refl lo) (le_of_lt h2)]
  · unfold midLowPiece; rw [div_self hlm]; norm_num
  · rw [md hi, mid_eval_ideal (le_of_lt h2) (le_refl hi)]
  · unfold midHighPiece; rw [div_self hmh]; norm_num
  · rw [md hm, mid_eval_bot h1 (le_refl hm)]
  · unfold midLowPiece; norm_num
  · rw [md hmax, mid_eval_zero (by linarith) h3 (le_refl hmax)]
  · unfold midHighPiece; norm_num

/-- C2 witness: the amended boundary statement instantiated at the
concrete configuration `hard_min = 0 < ideal_low = 4 < ideal_high = 12 <
hard_max = 30` (the shipped `cuts_per_minute` band `G3_3_5`). -/
theorem C2_witness :
    (0 : ℚ) < 4 ∧ (4 : ℚ) < 12 ∧ (12 : ℚ) < 30 ∧
    (normalizeWith (midCfg 4 12 0 30) 0 = .score 0 ∧ midLowPiece 4 0 0 = 0.5) :=
  ⟨by norm_num, by norm_num, by norm_num,
    (C2_boundary_continuity_amended 4 12 0 30 (by norm_num) (by norm_num)
      (by norm_num)).2.2.2.2.2.2.2.2.1⟩

/-- C3: the neutral fallbacks do hold for an unknown age band
(`normalize_metric` returns 0.5, both aggregates fall back to equal
weights), but `generate_recommendations` raises a `KeyError` (modelled as
`.error ()`) when `raw_metrics` contains `aggression_rate` (likewise
`cuts_per_minute`) and the age band is unconfigured, because the source
reads `METRIC_CONFIG["aggression_rate"][age_band]` with a raw subscript. -/
theorem C3_unknown_band_raises :
    normalize_metric "cuts_per_minute" 3 "X_UNKNOWN" = .score 0.5 ∧
    aggregate_dev_score [] "X_UNKNOWN" = 0 ∧
    aggregate_brainrot_index [] "X_UNKNOWN" = 50 ∧
    generate_recommendations [] [("aggression_rate", 1)] "X_UNKNOWN" = .error () ∧
    generate_recommendations [] [("cuts_per_minute", 1)] "X_UNKNOWN" = .error () := by
  refine ⟨?_, ?_, ?_, ?_, ?_⟩
  · simp +decide [normalize_metric, lookupSpec, METRIC_CONFIG, List.lookup]
  · simp +decide [aggregate_dev_score, DEV_WEIGHTS, equalWeights, DIMENSIONS,
      List.lookup]
  · simp +decide [aggregate_brainrot_index, BRAINROT_WEIGHTS, equalWeights,
      riskScores, DIMENSIONS, List.lookup]
    norm_num
  · simp +decide [generate_recommendations, aggressionCheck, cutsCheck,
      prosocialCheck, lookupSpec, METRIC_CONFIG, List.lookup]
  · simp +decide [generate_recommendations, aggressionCheck, cutsCheck,
      prosocialCheck, lookupSpec, METRIC_CONFIG, List.lookup]

/-- C4: the concrete scenarios of the spec under the shipped configuration.
`cuts_per_minute` in `G3_3_5` (mid, 4/12/30): 8 ↦ 1.0, 2 ↦ 0.75,
20 ↦ 0.5 + 0.5·(30−20)/(30−12) (= 7/9, i.e. 0.7778 to 4 decimal places),
35 ↦ 0.0; `avg_shot_length` in `G1_0_2` (higher_better, 8/100/2):
50 ↦ 41/46 (0.8913 to 4 decimal places), 100 ↦ 1.0, 2 ↦ 0.0, 5 ↦ 0.4;
`sfx_rate` in `G1_0_2` (lower_better, 0/2/8): 1 ↦ 0.9, 5 ↦ 0.4, 10 ↦ 0.0,
0 ↦ 1.0. -/
theorem C4_concrete_scenarios :
    normalize_metric "cuts_per_minute" 8 "G3_3_5" = .score 1 ∧
    normalize_metric "cuts_per_minute" 2 "G3_3_5" = .score 0.75 ∧
    normalize_metric "cuts_per_minute" 20 "G3_3_5"
      = .score (0.5 + 0.5 * ((30 - 20) / (30 - 12))) ∧
    |(0.5 + 0.5 * ((30 - 20) / (30 - 12)) : ℚ) - 0.7778| < 0.00005 ∧
    normalize_metric "cuts_per_minute" 35 "G3_3_5" = .score 0 ∧
    normalize_metric "avg_shot_length" 50 "G1_0_2" = .score (41 / 46) ∧
    |(41 / 46 : ℚ) - 0.8913| < 0.00005 ∧
    normalize_metric "avg_shot_length" 100 "G1_0_2" = .score 1 ∧
    normalize_metric "avg_shot_length" 2 "G1_0_2" = .score 0 ∧
    normalize_metric "avg_shot_length" 5 "G1_0_2" = .score 0.4 ∧
    normalize_metric "sfx_rate" 1 "G1_0_2" = .score 0.9 ∧
    normalize_metric "sfx_rate" 5 "G1_0_2" = .score 0.4 ∧
    normalize_metric "sfx_rate" 10 "G1_0_2" = .score 0 ∧
    normalize_metric "sfx_rate" 0 "G1_0_2" = .score 1 := by
  refine ⟨?_, ?_, ?_, by rw [abs_lt]; constructor <;> norm_num, ?_, ?_,
    by rw [abs_lt]; constructor <;> norm_num, ?_, ?_, ?_, ?_, ?_, ?_, ?_⟩ <;>
    (simp +decide [normalize_metric, lookupSpec, METRIC_CONFIG, normalizeWith,
      qdiv, List.lookup]) <;> norm_num

/-- C6 failing input: for the shipped configuration, `avg_shot_length` in
band `G3_3_5` is `mid` with no `hard_max` key, so `hard_max` defaults to
`float('inf')` and a value above `ideal_high = 20` makes the code compute
`0.5 + 0.5·(inf − 25)/(inf − 20) = NaN`, which is not in [0, 1]. -/
theorem C6_nan_failing_input :
    normalize_metric "avg_shot_length" 25 "G3_3_5" = .nanScore ∧
    lookupSpec "avg_shot_length" "G3_3_5"
      = some ⟨some 4, some 20, some 1, none, "mid"⟩ := by
  constructor
  · simp +decide [normalize_metric, lookupSpec, METRIC_CONFIG, normalizeWith,
      qdiv, List.lookup]
  · simp +decide [lookupSpec, METRIC_CONFIG, List.lookup]

/-- C5: monotonicity of the normalizer in its value argument, for every
configuration satisfying the MetricSpec invariants (`ideal_low ≤
ideal_high`, hard bounds strictly outside the ideal range):
`higher_better` is non-decreasing, `lower_better` is non-increasing, and
`mid` is non-decreasing up to `ideal_high`, non-increasing from
`ideal_high`, and constantly 1.0 on `[ideal_low, ideal_high]`. -/
theorem C5_monotonicity :
    ∀ lo hi hm hmax v1 v2 : ℚ, hm < lo → lo ≤ hi → hi < hmax → v1 ≤ v2 →
      (∃ a b, normalizeWith (hbCfg lo hi hm) v1 = .score a ∧
        normalizeWith (hbCfg lo hi hm) v2 = .score b ∧ a ≤ b) ∧
      (∃ a b, normalizeWith (lbCfg lo hi hmax) v1 = .score a ∧
        normalizeWith (lbCfg lo hi hmax) v2 = .score b ∧ b ≤ a) ∧
      (v2 ≤ hi → ∃ a b, normalizeWith (midCfg lo hi hm hmax) v1 = .score a ∧
        normalizeWith (midCfg lo hi hm hmax) v2 = .score b ∧ a ≤ b) ∧
      (hi ≤ v1 → ∃ a b, normalizeWith (midCfg lo hi hm hmax) v1 = .score a ∧
        normalizeWith (midCfg lo hi hm hmax) v2 = .score b ∧ b ≤ a) ∧
      (∀ v, lo ≤ v → v ≤ hi → normalizeWith (midCfg lo hi hm hmax) v = .score 1) := by
  intro lo hi hm hmax v1 v2 hml hlh hhm h12
  have hb : ∀ v, normalizeWith (hbCfg lo hi hm) v = .score (hbScore lo hi hm v) := by
    intro v
    simpa [hbCfg] using normalizeWith_hb (hbCfg lo hi hm) v rfl
  have lb : ∀ v, normalizeWith (lbCfg lo hi hmax) v
      = .score (lbScore lo hi hmax v) := by
    intro v
    simpa [lbCfg] using normalizeWith_lb (lbCfg lo hi hmax) v hmax rfl rfl
  have md : ∀ v, normalizeWith (midCfg lo hi hm hmax) v
      = .score (midScore lo hi hm hmax v) := by
    intro v
    simpa [midCfg] using normalizeWith_mid (midCfg lo hi hm hmax) v hmax rfl rfl
  refine ⟨⟨_, _, hb v1, hb v2, hbScore_mono lo hi hm v1 v2 h12⟩,
    ⟨_, _, lb v1, lb v2, lbScore_antitone lo hi hmax v1 v2 h12⟩,
    fun h2hi => ⟨_, _, md v1, md v2,
      midScore_mono_below lo hi hm hmax v1 v2 hlh h12 h2hi⟩,
    fun h1hi => ⟨_, _, md v1, md v2,
      midScore_anti_above lo hi hm hmax v1 v2 hlh h12 h1hi⟩,
    fun v hv1 hv2 => ?_⟩
  rw [md v, mid_eval_ideal hv1 hv2]

/-- C5 witness: the monotonicity statement instantiated at the concrete
configuration `hard_min = 0 < ideal_low = 4 ≤ ideal_high = 12 < hard_max =
30` and values `1 ≤ 2`. -/
theorem C5_witness :
    (0 : ℚ) < 4 ∧ (4 : ℚ) ≤ 12 ∧ (12 : ℚ) < 30 ∧ (1 : ℚ) ≤ 2 ∧
    (∃ a b, normalizeWith (hbCfg 4 12 0) 1 = .score a ∧
      normalizeWith (hbCfg 4 12 0) 2 = .score b ∧ a ≤ b) :=
  ⟨by norm_num, by norm_num, by norm_num, by norm_num,
    (C5_monotonicity 4 12 0 30 1 2 (by norm_num) (by norm_num) (by norm_num)
      (by norm_num)).1⟩

/-- C7: degenerate-interval safety.  For every configuration (any fields,
any direction) and every value, the normalizer never evaluates a division
with a zero denominator (no division fault is reachable), and in each
degenerate configuration the value at or across the degenerate point gets
the boundary score 0.0 or 1.0 of its side, as an instant step:
`higher_better` with `ideal_low = hard_min` gives 0 at and below the point
and 1 from `ideal_high`; `higher_better` with `ideal_low = ideal_high`
gives 1 at and above the point; `lower_better` with `ideal_high =
hard_max` gives 0 at and above the point; `lower_better` with `ideal_low =
ideal_high` gives 1 at and below the point; `mid` with `ideal_low =
hard_min` gives 0 strictly below and 1 at the point; `mid` with
`ideal_high = hard_max` gives 0 strictly above and 1 at the point. -/
theorem C7_degenerate_safety :
    (∀ (cfg : MSpec) (v : ℚ), normalizeWith cfg v ≠ .divFault) ∧
    (∀ lo hi v : ℚ, v ≤ lo →
      normalizeWith (hbCfg lo hi lo) v = .score (if hi ≤ v then 1 else 0)) ∧
    (∀ lo hm v : ℚ, lo ≤ v → normalizeWith (hbCfg lo lo hm) v = .score 1) ∧
    (∀ lo hi v : ℚ, lo < v → hi ≤ v → normalizeWith (lbCfg lo hi hi) v = .score 0) ∧
    (∀ lo hmax v : ℚ, v ≤ lo → normalizeWith (lbCfg lo lo hmax) v = .score 1) ∧
    (∀ lo hi hmax v : ℚ, v < lo → normalizeWith (midCfg lo hi lo hmax) v = .score 0) ∧
    (∀ lo hi hmax : ℚ, lo ≤ hi → normalizeWith (midCfg lo hi lo hmax) lo = .score 1) ∧
    (∀ lo hi hm v : ℚ, lo ≤ v → hi < v → normalizeWith (midCfg lo hi hm hi) v = .score 0) ∧
    (∀ lo hi hm : ℚ, lo ≤ hi → normalizeWith (midCfg lo hi hm hi) hi = .score 1) := by
  refine ⟨normalizeWith_ne_divFault, ?_, ?_, ?_, ?_, ?_, ?_, ?_, ?_⟩
  · intro lo hi v hv
    rw [show normalizeWith (hbCfg lo hi lo) v = .score (hbScore lo hi lo v) by
      simpa [hbCfg] using normalizeWith_hb (hbCfg lo hi lo) v rfl]
    rcases le_or_lt hi v with h | h
    · rw [hb_eval_top h, if_pos h]
    · rw [hb_eval_bot h hv, if_neg (not_le.mpr h)]
  · intro lo hm v hv
    rw [show normalizeWith (hbCfg lo lo hm) v = .score (hbScore lo lo hm v) by
      simpa [hbCfg] using normalizeWith_hb (hbCfg lo lo hm) v rfl]
    rw [hb_eval_top hv]
  · intro lo hi v h1 h2
    rw [show normalizeWith (lbCfg lo hi hi) v = .score (lbScore lo hi hi v) by
      simpa [lbCfg] using normalizeWith_lb (lbCfg lo hi hi) v hi rfl rfl]
    rw [lb_eval_zero h1 h2]
  · intro lo hmax v hv
    rw [show normalizeWith (lbCfg lo lo hmax) v = .score (lbScore lo lo hmax v) by
      simpa [lbCfg] using normalizeWith_lb (lbCfg lo lo hmax) v hmax rfl rfl]
    rw [lb_eval_top hv]
  · intro lo hi hmax v hv
    rw [show normalizeWith (midCfg lo hi lo hmax) v
        = .score (midScore lo hi lo hmax v) by
      simpa [midCfg] using normalizeWith_mid (midCfg lo hi lo hmax) v hmax rfl rfl]
    rw [mid_eval_bot hv (le_of_lt hv)]
  · intro lo hi hmax hlh
    rw [show normalizeWith (midCfg lo hi lo hmax) lo
        = .score (midScore lo hi lo hmax lo) by
      simpa [midCfg] using normalizeWith_mid (midCfg lo hi lo hmax) lo hmax rfl rfl]
    rw [mid_eval_ideal (le_refl lo) hlh]
  · intro lo hi hm v h1 h2
    rw [show normalizeWith (midCfg lo hi hm hi) v = .score (midScore lo hi hm hi v) by
      simpa [midCfg] using normalizeWith_mid (midCfg lo hi hm hi) v hi rfl rfl]
    rw [mid_eval_zero h1 h2 (le_of_lt h2)]
  · intro lo hi hm hlh
    rw [show normalizeWith (midCfg lo hi hm hi) hi = .score (midScore lo hi hm hi hi) by
      simpa [midCfg] using normalizeWith_mid (midCfg lo hi hm hi) hi hi rfl rfl]
    rw [mid_eval_ideal hlh (le_refl hi)]

/-- C7 witness: the degenerate-safety statement applied concretely — no
division fault at a degenerate `higher_better` configuration with
`ideal_low = hard_min = 4`, and the instant-step scores around it. -/
theorem C7_witness :
    normalizeWith (hbCfg 4 12 4) 4 ≠ .divFault ∧
    ((4 : ℚ) ≤ 4 ∧ normalizeWith (hbCfg 4 12 4) 4 = .score (if (12:ℚ) ≤ 4 then 1 else 0)) ∧
    ((4 : ℚ) ≤ 12 ∧ normalizeWith (hbCfg 4 4 0) 12 = .score 1) :=
  ⟨C7_degenerate_safety.1 (hbCfg 4 12 4) 4,
    ⟨le_refl 4, C7_degenerate_safety.2.1 4 12 4 (le_refl 4)⟩,
    ⟨by norm_num, C7_degenerate_safety.2.2.1 4 0 12 (by norm_num)⟩⟩

/-- C8: `assign_age_band` is total and resolves by first match with a
last-band fallback: every age in a declared band maps to that band, and an
age outside every band (negative, or at/above the last band's `max_age` of
8) maps to the last declared band `G4_5_8`; in the out-of-range case the
scan itself finds nothing and the fallback fires. -/
theorem C8_age_band_total :
    ∀ a : ℚ,
      assign_age_band a =
        (if 0 ≤ a ∧ a < 2 then "G1_0_2"
         else if 2 ≤ a ∧ a < 3 then "G2_2_3"
         else if 3 ≤ a ∧ a < 5 then "G3_3_5"
         else "G4_5_8") ∧
      ((a < 0 ∨ 8 ≤ a) →
        AGE_BANDS.find? (fun p =>
          decide (p.2.min_age ≤ a) && decide (a < p.2.max_age)) = none) := by
  intro a
  rcases lt_or_le a 0 with r0 | r0
  · have f0 : ¬ (0 : ℚ) ≤ a := not_le.mpr r0
    have f2 : ¬ (2 : ℚ) ≤ a := by intro hc; linarith
    have f3 : ¬ (3 : ℚ) ≤ a := by intro hc; linarith
    have f5 : ¬ (5 : ℚ) ≤ a := by intro hc; linarith
    constructor
    · simp [assign_age_band, AGE_BANDS, List.find?, f0, f2, f3, f5]
    · intro _; simp [AGE_BANDS, List.find?, f0, f2, f3, f5]
  rcases lt_or_le a 2 with r2 | r2
  · constructor
    · simp [assign_age_band, AGE_BANDS, List.find?, r0, r2]
    · intro h; exfalso; rcases h with h | h <;> linarith
  rcases lt_or_le a 3 with r3 | r3
  · have n2 : ¬ a < 2 := not_lt.mpr r2
    constructor
    · simp [assign_age_band, AGE_BANDS, List.find?, r0, r2, r3, n2]
    · intro h; exfalso; rcases h with h | h <;> linarith
  rcases lt_or_le a 5 with r5 | r5
  · have n2 : ¬ a < 2 := by intro hc; linarith
    have n3 : ¬ a < 3 := not_lt.mpr r3
    have g2 : (2 : ℚ) ≤ a := by linarith
    constructor
    · simp [assign_age_band, AGE_BANDS, List.find?, r0, g2, r3, r5, n2, n3]
    · intro h; exfalso; rcases h with h | h <;> linarith
  rcases lt_or_le a 8 with r8 | r8
  · have n2 : ¬ a < 2 := by intro hc; linarith
    have n3 : ¬ a < 3 := by intro hc; linarith
    have n5 : ¬ a < 5 := not_lt.mpr r5
    have g2 : (2 : ℚ) ≤ a := by linarith
    have g3 : (3 : ℚ) ≤ a := by linarith
    constructor
    · simp [assign_age_band, AGE_BANDS, List.find?, r0, g2, g3, r5, r8, n2, n3, n5]
    · intro h; exfalso; rcases h with h | h <;> linarith
  · have n2 : ¬ a < 2 := by intro hc; linarith
    have n3 : ¬ a < 3 := by intro hc; linarith
    have n5 : ¬ a < 5 := by intro hc; linarith
    have n8 : ¬ a < 8 := not_lt.mpr r8
    constructor
    · simp [assign_age_band, AGE_BANDS, List.find?, r0, n2, n3, n5, n8]
    · intro _; simp [AGE_BANDS, List.find?, n2, n3, n5, n8]

/-- C8 witness: the out-of-range side at the concrete age 9 — the scan
finds no band and `assign_age_band` returns the last band. -/
theorem C8_witness :
    assign_age_band 9 = "G4_5_8" ∧
    ((9 : ℚ) < 0 ∨ (8 : ℚ) ≤ 9) ∧
    AGE_BANDS.find? (fun p =>
      decide (p.2.min_age ≤ (9 : ℚ)) && decide ((9 : ℚ) < p.2.max_age)) = none := by
  have h := C8_age_band_total 9
  refine ⟨?_, Or.inr (by norm_num), h.2 (Or.inr (by norm_num))⟩
  rw [h.1]
  norm_num

lemma dimSpecScore_absent (ms : List String) (raw : List (String × ℚ))
    (age_band : String) (h : ∀ m ∈ ms, List.lookup m raw = none) :
    dimSpecScore ms raw age_band = some 50 := by
  unfold dimSpecScore presentPairs
  have hnil : ms.filterMap (fun m => (List.lookup m raw).map (fun v => (m, v))) = [] := by
    rw [List.filterMap_eq_nil_iff]
    intro m hm
    rw [h m hm]
    rfl
  rw [hnil]
  simp

/-- C9: `compute_dimension_scores` never raises, and equals, per declared
dimension, 100 times the plain average of the normalized scores of exactly
the declared metrics present in `raw_metrics` (absent metrics are skipped,
not zeroed); a dimension none of whose declared metrics is present scores
exactly 50.0. -/
theorem C9_dimension_aggregation :
    ∀ (raw_metrics : List (String × ℚ)) (age_band : String),
      compute_dimension_scores raw_metrics age_band =
        .ok (DIMENSIONS.map (fun p => (p.1, dimSpecScore p.2 raw_metrics age_band))) ∧
      (∀ d ms, (d, ms) ∈ DIMENSIONS →
        (∀ m ∈ ms, List.lookup m raw_metrics = none) →
        List.lookup d (DIMENSIONS.map
          (fun p => (p.1, dimSpecScore p.2 raw_metrics age_band)))
          = some (some 50)) := by
  intro raw age_band
  constructor
  · exact dimLoop_ok raw age_band DIMENSIONS
  · intro d ms hmem habs
    simp only [DIMENSIONS, List.mem_cons, List.not_mem_nil, or_false,
      Prod.mk.injEq] at hmem
    rcases hmem with ⟨rfl, rfl⟩ | ⟨rfl, rfl⟩ | ⟨rfl, rfl⟩ | ⟨rfl, rfl⟩ |
      ⟨rfl, rfl⟩ | ⟨rfl, rfl⟩ <;>
      (simp +decide [DIMENSIONS, List.lookup]
       exact dimSpecScore_absent _ _ _ habs)

/-- C9 witness: with an empty `raw_metrics` (every metric absent), the
dimension scores all come back and `Pacing` scores exactly 50. -/
theorem C9_witness :
    compute_dimension_scores [] "G1_0_2" =
      .ok (DIMENSIONS.map (fun p => (p.1, dimSpecScore p.2 [] "G1_0_2"))) ∧
    List.lookup "Pacing" (DIMENSIONS.map
      (fun p => (p.1, dimSpecScore p.2 [] "G1_0_2"))) = some (some 50) := by
  have h := C9_dimension_aggregation [] "G1_0_2"
  refine ⟨h.1, h.2 "Pacing"
    ["cuts_per_minute", "avg_shot_length", "motion_high_frac",
     "loudness_mean", "music_ratio", "sfx_rate"]
    (by decide) (fun m _ => rfl)⟩

lemma dev_bounds_of_profile (ds profile : List (String × ℚ)) (band : String)
    (hdev : DEV_WEIGHTS.lookup band = some profile)
    (hnn : ∀ p ∈ profile, 0 ≤ p.2)
    (hsum : (profile.map Prod.snd).sum = 1)
    (hkeys : ∀ p ∈ profile, p.1 ∈ DIMENSIONS.map Prod.fst)
    (hds : ∀ d ∈ DIMENSIONS.map Prod.fst,
      ∃ s, List.lookup d ds = some s ∧ 0 ≤ s ∧ s ≤ 100) :
    0 ≤ aggregate_dev_score ds band ∧ aggregate_dev_score ds band ≤ 100 := by
  unfold aggregate_dev_score
  simp only [hdev]
  rw [foldl_lookup_add ds profile 0, zero_add]
  have hb := sum_weighted_bounds ds profile (fun p hp =>
    ⟨hnn p hp, hds p.1 (hkeys p hp)⟩)
  refine ⟨hb.1, le_trans hb.2 ?_⟩
  rw [hsum]
  norm_num

lemma brainrot_bounds_of_profile (ds profile : List (String × ℚ)) (band : String)
    (hbr : BRAINROT_WEIGHTS.lookup band = some profile)
    (hnn : ∀ p ∈ profile, 0 ≤ p.2)
    (hsum : (profile.map Prod.snd).sum = 1)
    (hkeys : ∀ p ∈ profile, p.1 ∈ DIMENSIONS.map Prod.fst)
    (hds : ∀ d ∈ DIMENSIONS.map Prod.fst,
      ∃ s, List.lookup d ds = some s ∧ 0 ≤ s ∧ s ≤ 100) :
    0 ≤ aggregate_brainrot_index ds band ∧
      aggregate_brainrot_index ds band ≤ 100 := by
  unfold aggregate_brainrot_index
  simp only [hbr]
  rw [foldl_lookup_add (riskScores ds) profile 0, zero_add]
  have hrisk : ∀ d ∈ DIMENSIONS.map Prod.fst,
      ∃ r, List.lookup d (riskScores ds) = some r ∧ 0 ≤ r ∧ r ≤ 100 := by
    intro d hd
    rw [riskScores_lookup ds d hd]
    rcases hds d hd with ⟨s, hs, h0, h100⟩
    rw [hs]
    exact ⟨100 - s, rfl, by linarith, by linarith⟩
  have hb := sum_weighted_bounds (riskScores ds) profile (fun p hp =>
    ⟨hnn p hp, hrisk p.1 (hkeys p hp)⟩)
  refine ⟨hb.1, le_trans hb.2 ?_⟩
  rw [hsum]
  norm_num

/-- C10: every weight in `DEV_WEIGHTS` and `BRAINROT_WEIGHTS` is
non-negative, each age band's profile in each table sums exactly to 1, and
consequently, for every configured age band and every `dimension_scores`
mapping giving each declared dimension a value in [0, 100], both
`aggregate_dev_score` and `aggregate_brainrot_index` land in [0, 100]. -/
theorem C10_weight_profiles_bounded_composites :
    (∀ band profile, (band, profile) ∈ DEV_WEIGHTS → ∀ p ∈ profile, 0 ≤ p.2) ∧
    (∀ band profile, (band, profile) ∈ BRAINROT_WEIGHTS → ∀ p ∈ profile, 0 ≤ p.2) ∧
    (∀ band profile, (band, profile) ∈ DEV_WEIGHTS →
      (profile.map Prod.snd).sum = 1) ∧
    (∀ band profile, (band, profile) ∈ BRAINROT_WEIGHTS →
      (profile.map Prod.snd).sum = 1) ∧
    (∀ (band : String) (ds : List (String × ℚ)),
      band ∈ DEV_WEIGHTS.map Prod.fst →
      (∀ d ∈ DIMENSIONS.map Prod.fst,
        ∃ s, List.lookup d ds = some s ∧ 0 ≤ s ∧ s ≤ 100) →
      (0 ≤ aggregate_dev_score ds band ∧ aggregate_dev_score ds band ≤ 100) ∧
      (0 ≤ aggregate_brainrot_index ds band ∧
        aggregate_brainrot_index ds band ≤ 100)) := by
  refine ⟨?_, ?_, ?_, ?_, ?_⟩
  · intro band profile h
    simp only [DEV_WEIGHTS, List.mem_cons, List.not_mem_nil, or_false,
      Prod.mk.injEq] at h
    rcases h with ⟨-, rfl⟩ | ⟨-, rfl⟩ | ⟨-, rfl⟩ | ⟨-, rfl⟩ <;>
      (intro p hp
       simp only [List.mem_cons, List.not_mem_nil, or_false] at hp
       rcases hp with rfl | rfl | rfl | rfl | rfl | rfl <;> norm_num)
  · intro band profile h
    simp only [BRAINROT_WEIGHTS, List.mem_cons, List.not_mem_nil, or_false,
      Prod.mk.injEq] at h
    rcases h with ⟨-, rfl⟩ | ⟨-, rfl⟩ | ⟨-, rfl⟩ | ⟨-, rfl⟩ <;>
      (intro p hp
       simp only [List.mem_cons, List.not_mem_nil, or_false] at hp
       rcases hp with rfl | rfl | rfl | rfl | rfl | rfl <;> norm_num)
  · intro band profile h
    simp only [DEV_WEIGHTS, List.mem_cons, List.not_mem_nil, or_false,
      Prod.mk.injEq] at h
    rcases h with ⟨-, rfl⟩ | ⟨-, rfl⟩ | ⟨-, rfl⟩ | ⟨-, rfl⟩ <;>
      (simp only [List.map_cons, List.map_nil, List.sum_cons, List.sum_nil]
       norm_num)
  · intro band profile h
    simp only [BRAINROT_WEIGHTS, List.mem_cons, List.not_mem_nil, or_false,
      Prod.mk.injEq] at h
    rcases h with ⟨-, rfl⟩ | ⟨-, rfl⟩ | ⟨-, rfl⟩ | ⟨-, rfl⟩ <;>
      (simp only [List.map_cons, List.map_nil, List.sum_cons, List.sum_nil]
       norm_num)
  · intro band ds hband hds
    simp only [DEV_WEIGHTS, List.map_cons, List.map_nil, List.mem_cons,
      List.not_mem_nil, or_false] at hband
    rcases hband with rfl | rfl | rfl | rfl <;>
      exact ⟨dev_bounds_of_profile ds _ _ rfl
          (by intro p hp
              simp only [List.mem_cons, List.not_mem_nil, or_false] at hp
              rcases hp with rfl | rfl | rfl | rfl | rfl | rfl <;> norm_num)
          (by simp only [List.map_cons, List.map_nil, List.sum_cons,
                List.sum_nil]; norm_num)
          (by intro p hp
              simp only [List.mem_cons, List.not_mem_nil, or_false] at hp
              rcases hp with rfl | rfl | rfl | rfl | rfl | rfl <;> decide) hds,
        brainrot_bounds_of_profile ds _ _ rfl
          (by intro p hp
              simp only [List.mem_cons, List.not_mem_nil, or_false] at hp
              rcases hp with rfl | rfl | rfl | rfl | rfl | rfl <;> norm_num)
          (by simp only [List.map_cons, List.map_nil, List.sum_cons,
                List.sum_nil]; norm_num)
          (by intro p hp
              simp only [List.mem_cons, List.not_mem_nil, or_false] at hp
              rcases hp with rfl | rfl | rfl | rfl | rfl | rfl <;> decide) hds⟩

/-- C10 witness: the bound statement applied at band `G1_0_2` and the
mapping giving every declared dimension the score 100: the Developmental
Score and the Brainrot Index both land in [0, 100]. -/
theorem C10_witness :
    ("G1_0_2" ∈ DEV_WEIGHTS.map Prod.fst) ∧
    ((0 ≤ aggregate_dev_score
        [("Pacing", 100), ("Story", 100), ("Language", 100), ("SEL", 100),
         ("Fantasy", 100), ("Interactivity", 100)] "G1_0_2" ∧
      aggregate_dev_score
        [("Pacing", 100), ("Story", 100), ("Language", 100), ("SEL", 100),
         ("Fantasy", 100), ("Interactivity", 100)] "G1_0_2" ≤ 100) ∧
     (0 ≤ aggregate_brainrot_index
        [("Pacing", 100), ("Story", 100), ("Language", 100), ("SEL", 100),
         ("Fantasy", 100), ("Interactivity", 100)] "G1_0_2" ∧
      aggregate_brainrot_index
        [("Pacing", 100), ("Story", 100), ("Language", 100), ("SEL", 100),
         ("Fantasy", 100), ("Interactivity", 100)] "G1_0_2" ≤ 100)) := by
  refine ⟨by decide, C10_weight_profiles_bounded_composites.2.2.2.2 "G1_0_2" _
    (by decide) ?_⟩
  intro d hd
  simp only [DIMENSIONS, List.map_cons, List.map_nil, List.mem_cons,
    List.not_mem_nil, or_false] at hd
  rcases hd with rfl | rfl | rfl | rfl | rfl | rfl <;>
    exact ⟨100, rfl, by norm_num, by norm_num⟩

end MindSafe
